import Mathlib

/-!
# Verification of the baby-stock-screener backend core

Shallow embedding, in Lean 4, of the pure computational core of the
`baby-stock-screener` backend (Python/FastAPI).  Python floats are modelled
as exact rationals (`ℚ`), optional/missing dict entries as `Option`,
Python truthiness (`None` and `0` falsy) explicitly.  Each definition is
translated from the corresponding Python function; the module and line
references are given in the doc comments.
-/

namespace Screener

/-- Python truthiness of an optional number: `None` and `0`/`0.0` are falsy. -/
def truthy : Option ℚ → Bool
  | none => false
  | some v => v != 0

/-- Python `a or b` on optional numbers: yields `b` when `a` is falsy. -/
def pyOr (a b : Option ℚ) : Option ℚ := if truthy a then a else b

/-! ## Sentiment service (`app/services/sentiment_service.py`) -/

/-- The `technicals` dict fields read by the sentiment engine
(`rsi`, `macd`, `macdsignal`); each may be absent. -/
structure Technicals where
  rsi : Option ℚ
  macd : Option ℚ
  macdsignal : Option ℚ

/-- A `{"score": ..., "label": ...}` pillar entry of the sentiment breakdown. -/
structure PillarScore where
  score : ℚ
  label : String
deriving DecidableEq

/-- The key-metrics fields read by the sentiment engine
(`sentiment_service.py` lines 79–80). -/
structure KeyMetrics where
  peRatioTTM : Option ℚ
  returnOnCapitalEmployedTTM : Option ℚ

/-- One analyst-recommendation row; absent count keys read through
`.get(key, 0)` are already folded into the integer fields. -/
structure Rating where
  ratingStrongBuy : ℤ
  ratingBuy : ℤ
  ratingHold : ℤ
  ratingSell : ℤ
  ratingStrongSell : ℤ

/-- The five verdict strings of `calculate_overall_sentiment`
("Strong Buy", "Buy", "Neutral", "Sell", "Strong Sell"). -/
inductive Verdict where
  | strongBuy
  | buy
  | neutral
  | sell
  | strongSell
deriving DecidableEq

/-- RSI momentum sub-score of `calculate_technical_sentiment`
(`sentiment_service.py` lines 20–27). -/
def rsiScore (rsi : Option ℚ) : ℚ :=
  match rsi with
  | none => 50
  | some r =>
    if r > 70 then 85
    else if r > 60 then 75
    else if r > 50 then 60
    else if r < 30 then 35
    else if r < 40 then 40
    else 45

/-- MACD trend sub-score of `calculate_technical_sentiment`
(`sentiment_service.py` lines 31–36). -/
def macdScore (macd macdsignal : Option ℚ) : ℚ :=
  match macd, macdsignal with
  | some m, some s => if m > s then 80 else 20
  | _, _ => 50

/-- `sentiment_service.calculate_technical_sentiment` (lines 1–46):
an empty/missing technicals dict yields the neutral 50 pillar; otherwise
the equal-weight average of the RSI and MACD sub-scores with a label. -/
def calculate_technical_sentiment (technicals : Option Technicals) : PillarScore :=
  match technicals with
  | none => { score := 50, label := "Neutral" }
  | some t =>
    let t_score := (rsiScore t.rsi + macdScore t.macd t.macdsignal) / 2
    { score := t_score,
      label := if t_score ≥ 60 then "Bullish" else if t_score ≤ 40 then "Bearish" else "Neutral" }

/-- Fundamental pillar score (`sentiment_service.py` lines 64–68):
`(piotroski_score / 9) * 100`, defaulting to the neutral 50 when absent. -/
def fundamentalScore (piotroski_score : Option ℤ) : ℚ :=
  match piotroski_score with
  | none => 50
  | some p => ((p : ℚ) / 9) * 100

/-- Valuation sub-score from P/E (`sentiment_service.py` lines 83–90). -/
def valScore (pe : Option ℚ) : ℚ :=
  match pe with
  | none => 50
  | some v =>
    if v > 0 then
      if v < 15 then 100 else if v < 25 then 75 else if v < 40 then 40 else 20
    else 10

/-- Efficiency sub-score from ROE/ROCE (`sentiment_service.py` lines 93–98). -/
def effScore (roe : Option ℚ) : ℚ :=
  match roe with
  | none => 50
  | some r => if r > 0.20 then 100 else if r > 0.12 then 75 else if r > 0.05 then 50 else 25

/-- Analyst consensus pillar score (`sentiment_service.py` lines 110–132):
vote-count-weighted average of StrongBuy=100, Buy=75, Hold=50, Sell=25,
StrongSell=0 over the first ratings row; 50 when no ratings or no votes. -/
def analystScore (analyst_ratings : List Rating) : ℚ :=
  match analyst_ratings with
  | [] => 50
  | latest :: _ =>
    let total_votes := latest.ratingStrongBuy + latest.ratingBuy + latest.ratingHold +
      latest.ratingSell + latest.ratingStrongSell
    if total_votes > 0 then
      ((latest.ratingStrongBuy * 100 + latest.ratingBuy * 75 + latest.ratingHold * 50 +
        latest.ratingSell * 25 + latest.ratingStrongSell * 0 : ℤ) : ℚ) / (total_votes : ℚ)
    else 50

/-- The result shape of `calculate_overall_sentiment`. -/
structure SentimentBreakdown where
  fundamental : PillarScore
  financial : PillarScore
  analyst : PillarScore
  technical : PillarScore

/-- The `{"score", "verdict", "breakdown"}` dict returned by
`calculate_overall_sentiment`. -/
structure OverallSentiment where
  score : ℚ
  verdict : Verdict
  breakdown : SentimentBreakdown

/-- `sentiment_service.calculate_overall_sentiment` (lines 49–161):
four pillars (fundamental, financial, analyst, technical), final score the
arithmetic mean of the four, verdict by inclusive thresholds 75/60/25/40. -/
def calculate_overall_sentiment (piotroski_score : Option ℤ) (key_metrics : KeyMetrics)
    (technicals : Option Technicals) (analyst_ratings : List Rating) : OverallSentiment :=
  let f_score := fundamentalScore piotroski_score
  let fundamental : PillarScore :=
    { score := f_score,
      label := if f_score > 70 then "Strong" else if f_score < 40 then "Weak" else "Stable" }
  let v_score := valScore key_metrics.peRatioTTM
  let e_score := effScore key_metrics.returnOnCapitalEmployedTTM
  let fin_score := v_score * 0.6 + e_score * 0.4
  let financial : PillarScore :=
    { score := fin_score,
      label := if v_score > 70 then "Undervalued"
               else if v_score < 40 then "Overvalued" else "Fair Value" }
  let a_score := analystScore analyst_ratings
  let analyst : PillarScore :=
    { score := a_score,
      label := if a_score > 60 then "Buy" else if a_score < 40 then "Sell" else "Hold" }
  let technical := calculate_technical_sentiment technicals
  let total_score := (fundamental.score + financial.score + analyst.score + technical.score) / 4
  let verdict :=
    if total_score ≥ 75 then Verdict.strongBuy
    else if total_score ≥ 60 then Verdict.buy
    else if total_score ≤ 25 then Verdict.strongSell
    else if total_score ≤ 40 then Verdict.sell
    else Verdict.neutral
  { score := total_score, verdict := verdict,
    breakdown := { fundamental := fundamental, financial := financial,
                   analyst := analyst, technical := technical } }

/-! ## Yahoo service (`app/services/yahoo_service.py`) -/

/-- The `ticker.info` fields read by `yahoo_service.get_quote`
(absent keys are `none`). -/
structure QuoteInfo where
  currentPrice : Option ℚ
  regularMarketPrice : Option ℚ
  previousClose : Option ℚ
  dayLow : Option ℚ
  dayHigh : Option ℚ
  fiftyTwoWeekHigh : Option ℚ
  fiftyTwoWeekLow : Option ℚ
  volume : Option ℚ
  regularMarketVolume : Option ℚ
  averageVolume : Option ℚ
  openPrice : Option ℚ

/-- The quote dict returned by `yahoo_service.get_quote` (the `timestamp`
field, a wall-clock read, is omitted). -/
structure Quote where
  price : Option ℚ
  change : ℚ
  changesPercentage : ℚ
  dayLow : Option ℚ
  dayHigh : Option ℚ
  yearHigh : Option ℚ
  yearLow : Option ℚ
  volume : Option ℚ
  avgVolume : Option ℚ
  openPrice : Option ℚ
  previousClose : Option ℚ

/-- `yahoo_service.get_quote` (lines 35–68), given the provider `info` dict:
`price` is the truthiness-fallback chain
`currentPrice or regularMarketPrice or previousClose`; `change` and the
percent change are computed only when both `price` and `previousClose` are
truthy, and otherwise keep their `0.0` defaults.  (The `except` branch that
returns `{}` on a provider error is outside this pure model.) -/
def get_quote (info : QuoteInfo) : Quote :=
  let price := pyOr (pyOr info.currentPrice info.regularMarketPrice) info.previousClose
  let prev_close := info.previousClose
  let change : ℚ :=
    if truthy price ∧ truthy prev_close then price.getD 0 - prev_close.getD 0 else 0
  let percent : ℚ :=
    if truthy price ∧ truthy prev_close then
      (price.getD 0 - prev_close.getD 0) / prev_close.getD 0 * 100
    else 0
  { price := price
    change := change
    changesPercentage := percent
    dayLow := info.dayLow
    dayHigh := info.dayHigh
    yearHigh := info.fiftyTwoWeekHigh
    yearLow := info.fiftyTwoWeekLow
    volume := pyOr info.volume info.regularMarketVolume
    avgVolume := info.averageVolume
    openPrice := info.openPrice
    previousClose := prev_close }

/-- A price-history bar; only the fields the modelled computations read
(`high`, `low`, `close`) are kept. -/
structure Bar where
  high : ℚ
  low : ℚ
  close : ℚ
deriving DecidableEq

/-- The `price_action` entry of `calculate_technical_indicators`. -/
structure PriceAction where
  current_close : ℚ
  trend : String
deriving DecidableEq

/-- The `price_action` part of `yahoo_service.calculate_technical_indicators`
(lines 185–217): on an empty frame the function returns `{}` (here `none`);
otherwise `prev` is the second-to-last row when there are at least two rows
and the last row itself otherwise, and `trend` is `"UP"` exactly when the
last close is strictly greater than `prev`'s close, else `"DOWN"`.  The
`pandas_ta` indicator calls only append extra columns and do not change
the `close` column this reads. -/
def price_action_of (df : List Bar) : Option PriceAction :=
  match df.getLast? with
  | none => none
  | some latest =>
    let prev := if df.length > 1 then df.get? (df.length - 2) |>.getD latest else latest
    some { current_close := latest.close
           trend := if latest.close > prev.close then "UP" else "DOWN" }

/-! ## Technical service (`app/services/technical_service.py`) -/

/-- The quote fields read by `calculate_darvas_box` (lines 26–29). -/
structure DarvasQuote where
  price : Option ℚ
  yearHigh : Option ℚ
  avgVolume : Option ℚ
  volume : Option ℚ

/-- Result of `calculate_darvas_box`: the `status` string, the box bounds and
`result` tag when a box is reported, and the volume tag of the breakout
message.  The free-text `message` strings are elided. -/
structure DarvasResult where
  status : String
  box_top : Option ℚ
  box_bottom : Option ℚ
  result : Option String
  volume_check : Option String
deriving DecidableEq

/-- Binary maximum on `ℚ` (an executable unfolding of `max`). -/
def rmax (a b : ℚ) : ℚ := if a ≤ b then b else a

/-- Binary minimum on `ℚ` (an executable unfolding of `min`). -/
def rmin (a b : ℚ) : ℚ := if a ≤ b then a else b

/-- Maximum of a list of rationals (pandas `Series.max()`; the `0` default is
never reached on the nonempty series this models). -/
def listMax : List ℚ → ℚ
  | [] => 0
  | x :: xs => xs.foldl rmax x

/-- Minimum of a list of rationals (pandas `Series.min()`). -/
def listMin : List ℚ → ℚ
  | [] => 0
  | x :: xs => xs.foldl rmin x

/-- The shared `{"status": "Insufficient Data", ...}` early return of
`calculate_darvas_box`. -/
def insufficientData : DarvasResult :=
  { status := "Insufficient Data", box_top := none, box_bottom := none,
    result := none, volume_check := none }

/-- `technical_service.calculate_darvas_box` (lines 18–76).  `none` for the
quote models the falsy empty dict `{}`; a quote field that is `None` or `0`
fails the `all([...])` check (Python truthiness).  `hist_df.tail(15)` is the
most recent 15 bars of the chronological history. -/
def calculate_darvas_box (hist : Option (List Bar)) (quote : Option DarvasQuote) :
    DarvasResult :=
  match hist, quote with
  | none, _ => insufficientData
  | some _, none => insufficientData
  | some df, some q =>
    if df.length < 30 then insufficientData
    else if ¬ (truthy q.price ∧ truthy q.yearHigh ∧ truthy q.avgVolume ∧ truthy q.volume) then
      insufficientData
    else
      let current_price := q.price.getD 0
      let year_high := q.yearHigh.getD 0
      let avg_volume := q.avgVolume.getD 0
      let current_volume := q.volume.getD 0
      if current_price < year_high * 0.90 then
        { status := "Not a Candidate", box_top := none, box_bottom := none,
          result := none, volume_check := none }
      else
        let recent_period := df.drop (df.length - 15)
        let box_top := listMax (recent_period.map Bar.high)
        let box_bottom := listMin (recent_period.map Bar.low)
        if box_top > box_bottom * 1.08 then
          { status := "No Box Formed", box_top := none, box_bottom := none,
            result := none, volume_check := none }
        else if current_price > box_top then
          { status := "Breakout!", box_top := some box_top, box_bottom := some box_bottom,
            result := some "Pass",
            volume_check := some (if current_volume > avg_volume * 1.5 then "on high volume"
                                  else "on average volume") }
        else if current_price < box_bottom then
          { status := "Breakdown", box_top := some box_top, box_bottom := some box_bottom,
            result := some "Fail", volume_check := none }
        else
          { status := "In Box", box_top := some box_top, box_bottom := some box_bottom,
            result := some "Neutral", volume_check := none }

/-- Mean of the last `w` closes: `rolling(window=w).mean().iloc[-1]`
(well-defined only when the series has at least `w` entries, which every
use below guarantees). -/
def lastRollingMean (w : ℕ) (closes : List ℚ) : ℚ :=
  (closes.drop (closes.length - w)).sum / (w : ℚ)

/-- The moving-averages dict of `calculate_moving_averages`: the 5/10/20/50
entries are always numbers when the dict is produced at all; the 100 and 200
entries are `None` unless the history is long enough. -/
structure MovingAverages where
  ma5 : ℚ
  ma10 : ℚ
  ma20 : ℚ
  ma50 : ℚ
  ma100 : Option ℚ
  ma200 : Option ℚ
deriving DecidableEq

/-- `technical_service.calculate_moving_averages` (lines 79–99): returns the
empty dict (`none`) whenever the history is missing, empty, or shorter than
50 bars; otherwise each SMA is the mean of the last `w` closes, with the
100- and 200-period entries additionally gated on the history length. -/
def calculate_moving_averages (hist : Option (List Bar)) : Option MovingAverages :=
  match hist with
  | none => none
  | some df =>
    if df.length < 50 then none
    else
      let closes := df.map Bar.close
      some { ma5 := lastRollingMean 5 closes
             ma10 := lastRollingMean 10 closes
             ma20 := lastRollingMean 20 closes
             ma50 := lastRollingMean 50 closes
             ma100 := if df.length ≥ 100 then some (lastRollingMean 100 closes) else none
             ma200 := if df.length ≥ 200 then some (lastRollingMean 200 closes) else none }

/-- One pivot level set (`pp`/`r1`–`r3`/`s1`–`s3`). -/
structure PivotSet where
  pp : ℚ
  r1 : ℚ
  s1 : ℚ
  r2 : ℚ
  s2 : ℚ
  r3 : ℚ
  s3 : ℚ
deriving DecidableEq

/-- The three pivot sets returned by `calculate_pivot_points`. -/
structure PivotPoints where
  classic : PivotSet
  fibonacci : PivotSet
  camarilla : PivotSet
deriving DecidableEq

/-- `technical_service.calculate_pivot_points` (lines 101–141): from the
second-to-last bar's high/low/close, the classic, Fibonacci and Camarilla
pivot sets; the empty dict (`none`) when the history has fewer than 2 bars. -/
def calculate_pivot_points (hist : Option (List Bar)) : Option PivotPoints :=
  match hist with
  | none => none
  | some df =>
    if h : df.length < 2 then none
    else
      let prev_day := df.get ⟨df.length - 2, by omega⟩
      let high := prev_day.high
      let low := prev_day.low
      let close := prev_day.close
      let price_range := high - low
      let pivot_classic := (high + low + close) / 3
      some
        { classic :=
            { pp := pivot_classic, r1 := 2 * pivot_classic - low, s1 := 2 * pivot_classic - high,
              r2 := pivot_classic + price_range, s2 := pivot_classic - price_range,
              r3 := high + 2 * (pivot_classic - low), s3 := low - 2 * (high - pivot_classic) }
          fibonacci :=
            { pp := pivot_classic,
              r1 := pivot_classic + 0.382 * price_range, s1 := pivot_classic - 0.382 * price_range,
              r2 := pivot_classic + 0.618 * price_range, s2 := pivot_classic - 0.618 * price_range,
              r3 := pivot_classic + 1.000 * price_range, s3 := pivot_classic - 1.000 * price_range }
          camarilla :=
            { pp := pivot_classic,
              r1 := close + price_range * 1.1 / 12, s1 := close - price_range * 1.1 / 12,
              r2 := close + price_range * 1.1 / 6, s2 := close - price_range * 1.1 / 6,
              r3 := close + price_range * 1.1 / 4, s3 := close - price_range * 1.1 / 4 } }

/-! ## Response sanitization (`app/routers/stocks.py`, `clean_nans`) -/

/-- A Python float as seen by `math.isnan`/`math.isinf`: either a finite
value or one of the non-finite floats. -/
inductive PyFloat where
  | finite (q : ℚ)
  | nan
  | inf
  | ninf
deriving DecidableEq

mutual
/-- A nested Python response value: scalars, lists, and dicts. -/
inductive PyVal where
  | vNone
  | vBool (b : Bool)
  | vInt (n : ℤ)
  | vStr (s : String)
  | vFloat (f : PyFloat)
  | vList (xs : PyList)
  | vDict (xs : PyDict)
/-- A Python list of response values. -/
inductive PyList where
  | nil
  | cons (v : PyVal) (rest : PyList)
/-- A Python dict of response values (insertion-ordered key/value pairs). -/
inductive PyDict where
  | nil
  | cons (k : String) (v : PyVal) (rest : PyDict)
end

mutual
/-- `stocks.clean_nans` (lines 506–512): a float that is NaN or ±infinity
becomes `None`; dicts and lists are rebuilt with every value cleaned
recursively; every other value is returned unchanged. -/
def clean_nans : PyVal → PyVal
  | .vFloat (.finite q) => .vFloat (.finite q)
  | .vFloat .nan => .vNone
  | .vFloat .inf => .vNone
  | .vFloat .ninf => .vNone
  | .vDict xs => .vDict (clean_nansDict xs)
  | .vList xs => .vList (clean_nansList xs)
  | .vNone => .vNone
  | .vBool b => .vBool b
  | .vInt n => .vInt n
  | .vStr s => .vStr s
/-- `clean_nans` mapped over a list (the list comprehension of line 511). -/
def clean_nansList : PyList → PyList
  | .nil => .nil
  | .cons v rest => .cons (clean_nans v) (clean_nansList rest)
/-- `clean_nans` mapped over a dict's values (the dict comprehension of
line 510). -/
def clean_nansDict : PyDict → PyDict
  | .nil => .nil
  | .cons k v rest => .cons k (clean_nans v) (clean_nansDict rest)
end

mutual
/-- Whether a nested value contains a non-finite float anywhere. -/
def hasNonFinite : PyVal → Bool
  | .vFloat .nan => true
  | .vFloat .inf => true
  | .vFloat .ninf => true
  | .vFloat (.finite _) => false
  | .vList xs => hasNonFiniteList xs
  | .vDict xs => hasNonFiniteDict xs
  | .vNone => false
  | .vBool _ => false
  | .vInt _ => false
  | .vStr _ => false
/-- Whether any element of a list contains a non-finite float. -/
def hasNonFiniteList : PyList → Bool
  | .nil => false
  | .cons v rest => hasNonFinite v || hasNonFiniteList rest
/-- Whether any value of a dict contains a non-finite float. -/
def hasNonFiniteDict : PyDict → Bool
  | .nil => false
  | .cons _ v rest => hasNonFinite v || hasNonFiniteDict rest
end

/-! ## Fundamental scoring (Piotroski F-score)

`stocks.get_all_stock_data` (lines 429–433) computes
`fundamental_service.calculate_piotroski_f_score(income, balance, cash_flow)`
on the three merged annual statement sequences.  The `fundamental_service`
module itself is not part of the provided sources, so the scorer is modelled
from the specification (§4.3). -/

/-- A normalized financial-statement row; every monetary field may be
absent. -/
structure FinRow where
  netIncome : Option ℚ
  revenue : Option ℚ
  grossProfit : Option ℚ
  totalAssets : Option ℚ
  longTermDebt : Option ℚ
  totalCurrentAssets : Option ℚ
  totalCurrentLiabilities : Option ℚ
  operatingCashFlow : Option ℚ
  weightedAverageShsOut : Option ℚ
deriving DecidableEq

/-- An all-absent statement row. -/
def FinRow.empty : FinRow :=
  ⟨none, none, none, none, none, none, none, none, none⟩

/-- Modelled from the spec: criterion "positive net income" of §4.3;
`fundamental_service.py` is absent from the sources.  Missing inputs score
0 (not satisfied). -/
def critPositiveNetIncome (inc : List FinRow) : Bool :=
  match inc.head? with
  | some r => match r.netIncome with
    | some n => decide (n > 0)
    | none => false
  | none => false

/-- Modelled from the spec: criterion "positive operating cash flow" of
§4.3. -/
def critPositiveOperatingCashFlow (cf : List FinRow) : Bool :=
  match cf.head? with
  | some r => match r.operatingCashFlow with
    | some c => decide (c > 0)
    | none => false
  | none => false

/-- Modelled from the spec: criterion "improving return-on-assets year over
year" of §4.3 (ROA = net income / total assets, latest vs previous year);
any missing input or zero denominator scores 0. -/
def critImprovingROA (inc bal : List FinRow) : Bool :=
  match inc.get? 0, inc.get? 1, bal.get? 0, bal.get? 1 with
  | some i0, some i1, some b0, some b1 =>
    match i0.netIncome, b0.totalAssets, i1.netIncome, b1.totalAssets with
    | some n0, some a0, some n1, some a1 =>
      a0 != 0 && a1 != 0 && decide (n0 / a0 > n1 / a1)
    | _, _, _, _ => false
  | _, _, _, _ => false

/-- Modelled from the spec: criterion "operating cash flow exceeds net
income (accruals quality)" of §4.3, on the latest year. -/
def critCashFlowExceedsIncome (inc cf : List FinRow) : Bool :=
  match inc.head?, cf.head? with
  | some i0, some c0 =>
    match c0.operatingCashFlow, i0.netIncome with
    | some c, some n => decide (c > n)
    | _, _ => false
  | _, _ => false

/-- Modelled from the spec: criterion "decreasing long-term debt ratio" of
§4.3 (long-term debt / total assets, latest vs previous year). -/
def critDecreasingDebtRatio (bal : List FinRow) : Bool :=
  match bal.get? 0, bal.get? 1 with
  | some b0, some b1 =>
    match b0.longTermDebt, b0.totalAssets, b1.longTermDebt, b1.totalAssets with
    | some d0, some a0, some d1, some a1 =>
      a0 != 0 && a1 != 0 && decide (d0 / a0 < d1 / a1)
    | _, _, _, _ => false
  | _, _ => false

/-- Modelled from the spec: criterion "improving current ratio" of §4.3
(current assets / current liabilities, latest vs previous year). -/
def critImprovingCurrentRatio (bal : List FinRow) : Bool :=
  match bal.get? 0, bal.get? 1 with
  | some b0, some b1 =>
    match b0.totalCurrentAssets, b0.totalCurrentLiabilities,
          b1.totalCurrentAssets, b1.totalCurrentLiabilities with
    | some ca0, some cl0, some ca1, some cl1 =>
      cl0 != 0 && cl1 != 0 && decide (ca0 / cl0 > ca1 / cl1)
    | _, _, _, _ => false
  | _, _ => false

/-- Modelled from the spec: criterion "no new share issuance (shares
outstanding flat or down)" of §4.3, latest vs previous year. -/
def critNoNewShares (inc : List FinRow) : Bool :=
  match inc.get? 0, inc.get? 1 with
  | some i0, some i1 =>
    match i0.weightedAverageShsOut, i1.weightedAverageShsOut with
    | some s0, some s1 => decide (s0 ≤ s1)
    | _, _ => false
  | _, _ => false

/-- Modelled from the spec: criterion "improving gross margin" of §4.3
(gross profit / revenue, latest vs previous year). -/
def critImprovingGrossMargin (inc : List FinRow) : Bool :=
  match inc.get? 0, inc.get? 1 with
  | some i0, some i1 =>
    match i0.grossProfit, i0.revenue, i1.grossProfit, i1.revenue with
    | some g0, some r0, some g1, some r1 =>
      r0 != 0 && r1 != 0 && decide (g0 / r0 > g1 / r1)
    | _, _, _, _ => false
  | _, _ => false

/-- Modelled from the spec: criterion "improving asset turnover" of §4.3
(revenue / total assets, latest vs previous year). -/
def critImprovingAssetTurnover (inc bal : List FinRow) : Bool :=
  match inc.get? 0, inc.get? 1, bal.get? 0, bal.get? 1 with
  | some i0, some i1, some b0, some b1 =>
    match i0.revenue, b0.totalAssets, i1.revenue, b1.totalAssets with
    | some r0, some a0, some r1, some a1 =>
      a0 != 0 && a1 != 0 && decide (r0 / a0 > r1 / a1)
    | _, _, _, _ => false
  | _, _, _, _ => false

/-- The Piotroski result: the integer score and the per-criterion
breakdown. -/
structure PiotroskiResult where
  score : ℕ
  positiveNetIncome : Bool
  positiveOperatingCashFlow : Bool
  improvingROA : Bool
  cashFlowExceedsIncome : Bool
  decreasingDebtRatio : Bool
  improvingCurrentRatio : Bool
  noNewShares : Bool
  improvingGrossMargin : Bool
  improvingAssetTurnover : Bool
deriving DecidableEq

/-- Modelled from the spec: `fundamental_service.calculate_piotroski_f_score`
(§4.3; the module is absent from the sources, only its call site in
`stocks.py` lines 429–433 is present).  Each of the 9 criteria contributes
exactly 1 point when satisfied; the score is their sum. -/
def calculate_piotroski_f_score (inc bal cf : List FinRow) : PiotroskiResult :=
  let c1 := critPositiveNetIncome inc
  let c2 := critPositiveOperatingCashFlow cf
  let c3 := critImprovingROA inc bal
  let c4 := critCashFlowExceedsIncome inc cf
  let c5 := critDecreasingDebtRatio bal
  let c6 := critImprovingCurrentRatio bal
  let c7 := critNoNewShares inc
  let c8 := critImprovingGrossMargin inc
  let c9 := critImprovingAssetTurnover inc bal
  { score := c1.toNat + c2.toNat + c3.toNat + c4.toNat + c5.toNat + c6.toNat + c7.toNat +
      c8.toNat + c9.toNat
    positiveNetIncome := c1
    positiveOperatingCashFlow := c2
    improvingROA := c3
    cashFlowExceedsIncome := c4
    decreasingDebtRatio := c5
    improvingCurrentRatio := c6
    noNewShares := c7
    improvingGrossMargin := c8
    improvingAssetTurnover := c9 }

/-! ## Master merge (`app/routers/stocks.py`, `get_all_stock_data`) -/

/-- An insertion-ordered Python dict with arbitrary values. -/
abbrev Dict := List (String × PyVal)

/-- Python truthiness of an arbitrary value (`None`, `0`, `0.0`, `False`,
`""` and empty containers are falsy; non-finite floats are truthy). -/
def pyTruthy : PyVal → Bool
  | .vNone => false
  | .vBool b => b
  | .vInt n => n != 0
  | .vFloat (.finite q) => q != 0
  | .vFloat _ => true
  | .vStr s => s != ""
  | .vList .nil => false
  | .vList (.cons _ _) => true
  | .vDict .nil => false
  | .vDict (.cons _ _ _) => true

/-- Truthiness of `d.get(k)` (absent key = `None` = falsy). -/
def pyTruthyOpt : Option PyVal → Bool
  | none => false
  | some v => pyTruthy v

/-- `d.get(k)`: the value at key `k`, if present. -/
def dictGet (d : Dict) (k : String) : Option PyVal :=
  (d.find? (fun kv => kv.1 == k)).map (·.2)

/-- Python `d[k] = v`: replace the value at `k` when present, else append
the new pair. -/
def dictSet (d : Dict) (k : String) (v : PyVal) : Dict :=
  if d.any (fun kv => kv.1 == k) then
    d.map (fun kv => if kv.1 == k then (kv.1, v) else kv)
  else d ++ [(k, v)]

/-- Python double-splat dict merge (`stocks.py` line 400): all keys of `a`
(values overridden by `b` where shared) followed by the keys only in `b`. -/
def pyDictUnion (a b : Dict) : Dict :=
  a.map (fun kv => (kv.1, (dictGet b kv.1).getD kv.2)) ++
    b.filter (fun kv => !(a.any (fun kv2 => kv2.1 == kv.1)))

/-- The `{'income', 'balance', 'cash_flow'}` triple returned by
`yahoo_service.get_historical_financials` / `get_quarterly_financials`. -/
structure YFinancials where
  income : List FinRow
  balance : List FinRow
  cash_flow : List FinRow

/-- The all-empty financials triple (the failure default of the Yahoo
financials fetchers, and the `\x7b'income': []\x7d`-shaped `safe_get`
default of `stocks.py` lines 418–419 combined with `.get(_, [])`). -/
def YFinancials.empty : YFinancials := ⟨[], [], []⟩

/-- The resolved concurrent fetch tasks of `get_all_stock_data` (lines
312–348), after `safe_get`'s collapsing: `none` stands for a task that
raised, returned `None`, or returned an empty list — the cases `safe_get`
replaces with the category default.  The `yf_profile`/`yf_quote`/
`yf_historical_financials`/`yf_quarterly_financials` entries exist only for
international symbols (line 336); for domestic symbols they are unused. -/
structure FetchResults where
  fmp_profile : Option Dict
  fmp_quote : Option Dict
  fmp_key_metrics : Option Dict
  fmp_income_5y : Option (List FinRow)
  fmp_balance_5y : Option (List FinRow)
  fmp_cash_flow_5y : Option (List FinRow)
  fmp_quarterly_income : Option (List FinRow)
  fmp_quarterly_balance : Option (List FinRow)
  fmp_quarterly_cash_flow : Option (List FinRow)
  news : Option (List PyVal)
  yf_recommendations : Option (List Rating)
  yf_price_target : Option Dict
  yf_profile : Option Dict
  yf_quote : Option Dict
  yf_key_fundamentals : Option Dict
  yf_historical_financials : Option YFinancials
  yf_quarterly_financials : Option YFinancials

/-- Results of the lazily awaited Yahoo fallback calls issued for domestic
symbols (`stocks.py` lines 385–386 and 415–416); each fetcher returns its
empty default on failure, so these are plain values. -/
structure LazyFetches where
  p_yf : Dict
  q_yf : Dict
  yf_hist : YFinancials
  yf_q : YFinancials

/-- The merged per-category values of the master response (the keys of
`final_data` the reconciliation assigns in `stocks.py` lines 358–472 and
the `tradingview_symbol` injection of line 478). -/
structure MergedData where
  profile : Dict
  quote : Dict
  key_metrics : Dict
  annual_revenue_and_profit : List FinRow
  annual_balance_sheets : List FinRow
  annual_cash_flow_statements : List FinRow
  quarterly_income_statements : List FinRow
  quarterly_balance_sheets : List FinRow
  quarterly_cash_flow_statements : List FinRow
  news : List PyVal
  analyst_ratings : List Rating
  price_target_consensus : Dict

/-- `stocks.is_valid_financials` (lines 368–374): a statement list is valid
when one of its first 3 rows carries a non-`None` net income or revenue. -/
def is_valid_financials (data : List FinRow) : Bool :=
  data.length != 0 &&
    (data.take 3).any (fun r => r.netIncome.isSome || r.revenue.isSome)

/-- `stocks.TRADINGVIEW_OVERRIDE_MAP` (lines 51–59). -/
def TRADINGVIEW_OVERRIDE_MAP : List (String × String) :=
  [("TATAPOWER.NS", "NSE:TATAPOWER"), ("RELIANCE.NS", "NSE:RELIANCE"),
   ("BAJFINANCE.NS", "NSE:BAJFINANCE"), ("HDFCBANK.NS", "NSE:HDFCBANK"),
   ("SBIN.NS", "NSE:SBIN"), ("INFY.NS", "NSE:INFY"), ("TCS.NS", "NSE:TCS")]

/-- The TradingView symbol computed in `stocks.py` lines 474–477. -/
def tvSymbol (symbol : String) : String :=
  match TRADINGVIEW_OVERRIDE_MAP.find? (fun kv => kv.1 == symbol) with
  | some kv => kv.2
  | none =>
    if symbol.endsWith ".NS" then symbol.replace ".NS" ""
    else if symbol.endsWith ".BO" then "BSE:" ++ symbol.replace ".BO" ""
    else symbol

/-- The profile/quote pair selected by `get_all_stock_data` (lines 379–395):
FMP when the FMP profile is non-empty and the FMP quote has a truthy
`price`, else the Yahoo results (the lazily awaited ones for a domestic
symbol, the concurrently fetched ones for an international symbol). -/
def mergePQ (symbol : String) (raw : FetchResults) (lazy : LazyFetches) : Dict × Dict :=
  if (raw.fmp_profile.getD []).isEmpty ||
      !pyTruthyOpt (dictGet (raw.fmp_quote.getD []) "price") then
    if !(symbol.contains '.') then (lazy.p_yf, lazy.q_yf)
    else (raw.yf_profile.getD [], raw.yf_quote.getD [])
  else (raw.fmp_profile.getD [], raw.fmp_quote.getD [])

/-- The (annual, quarterly) financial-statement triples selected by
`get_all_stock_data` (lines 402–426): FMP when its annual income data is
valid, else the Yahoo financials (lazy for domestic, concurrent for
international symbols). -/
def mergeFins (symbol : String) (raw : FetchResults) (lazy : LazyFetches) :
    YFinancials × YFinancials :=
  if is_valid_financials (raw.fmp_income_5y.getD []) then
    (⟨raw.fmp_income_5y.getD [], raw.fmp_balance_5y.getD [], raw.fmp_cash_flow_5y.getD []⟩,
     ⟨raw.fmp_quarterly_income.getD [], raw.fmp_quarterly_balance.getD [],
      raw.fmp_quarterly_cash_flow.getD []⟩)
  else
    ((if !(symbol.contains '.') then lazy.yf_hist
      else raw.yf_historical_financials.getD YFinancials.empty),
     (if !(symbol.contains '.') then lazy.yf_q
      else raw.yf_quarterly_financials.getD YFinancials.empty))

/-- The category-merge portion of `stocks.get_all_stock_data` (lines
358–478): profile/quote FMP-first with Yahoo fallback, key metrics as the
double-splat union, the six statement sequences gated on
`is_valid_financials` of the FMP annual income data, news / analyst ratings
/ price target through `safe_get` defaults, and the `tradingview_symbol`
injection into the profile.  The derived computations the endpoint also
stores in `final_data` (Piotroski, Graham, technicals, sentiment,
shareholding, key stats) are modelled by their own functions in this file;
the final `clean_nans` pass maps over every value and preserves each
category key and each empty default. -/
def get_all_stock_data_merge (symbol : String) (raw : FetchResults)
    (lazy : LazyFetches) : MergedData :=
  let pq := mergePQ symbol raw lazy
  let fins := mergeFins symbol raw lazy
  { profile := dictSet pq.1 "tradingview_symbol" (.vStr (tvSymbol symbol))
    quote := pq.2
    key_metrics := pyDictUnion (raw.yf_key_fundamentals.getD [])
      (raw.fmp_key_metrics.getD [])
    annual_revenue_and_profit := fins.1.income
    annual_balance_sheets := fins.1.balance
    annual_cash_flow_statements := fins.1.cash_flow
    quarterly_income_statements := fins.2.income
    quarterly_balance_sheets := fins.2.balance
    quarterly_cash_flow_statements := fins.2.cash_flow
    news := raw.news.getD []
    analyst_ratings := raw.yf_recommendations.getD []
    price_target_consensus := raw.yf_price_target.getD [] }

/-- A fully-populated sample statement row used to instantiate theorems on
concrete inputs. -/
def sampleRow : FinRow :=
  ⟨some 5, some 10, some 4, some 20, some 1, some 8, some 4, some 7, some 9⟩

/-- A fetch-result record in which every concurrent task failed or came back
empty. -/
def rawEmpty : FetchResults :=
  ⟨none, none, none, none, none, none, none, none, none, none, none, none,
   none, none, none, none, none⟩

/-- Lazily-fetched Yahoo fallbacks that all came back empty. -/
def lazyEmpty : LazyFetches := ⟨[], [], YFinancials.empty, YFinancials.empty⟩

/-! ## Theorems -/

/-- C8: for every price history of at least 2 bars, `calculate_pivot_points`
computes all three pivot sets from the second-to-last bar's high `H`,
low `L`, close `C` with `range = H - L`: classic `PP = (H+L+C)/3`,
`R1 = 2*PP - L`, `S1 = 2*PP - H`, `R2 = PP + range`, `S2 = PP - range`;
Fibonacci `R1/S1 = PP ± 0.382*range`, `R2/S2 = PP ± 0.618*range`,
`R3/S3 = PP ± 1.0*range`; Camarilla `Rn/Sn = C ± range*1.1/12`,
`C ± range*1.1/6`, `C ± range*1.1/4`. -/
theorem C8_pivot_points (df : List Bar) (prev : Bar)
    (h2 : 2 ≤ df.length) (hprev : df.get? (df.length - 2) = some prev) :
    ∃ P : PivotPoints, calculate_pivot_points (some df) = some P ∧
      P.classic.pp = (prev.high + prev.low + prev.close) / 3 ∧
      P.classic.r1 = 2 * ((prev.high + prev.low + prev.close) / 3) - prev.low ∧
      P.classic.s1 = 2 * ((prev.high + prev.low + prev.close) / 3) - prev.high ∧
      P.classic.r2 = (prev.high + prev.low + prev.close) / 3 + (prev.high - prev.low) ∧
      P.classic.s2 = (prev.high + prev.low + prev.close) / 3 - (prev.high - prev.low) ∧
      P.fibonacci.r1 = (prev.high + prev.low + prev.close) / 3 + 0.382 * (prev.high - prev.low) ∧
      P.fibonacci.s1 = (prev.high + prev.low + prev.close) / 3 - 0.382 * (prev.high - prev.low) ∧
      P.fibonacci.r2 = (prev.high + prev.low + prev.close) / 3 + 0.618 * (prev.high - prev.low) ∧
      P.fibonacci.s2 = (prev.high + prev.low + prev.close) / 3 - 0.618 * (prev.high - prev.low) ∧
      P.fibonacci.r3 = (prev.high + prev.low + prev.close) / 3 + 1.0 * (prev.high - prev.low) ∧
      P.fibonacci.s3 = (prev.high + prev.low + prev.close) / 3 - 1.0 * (prev.high - prev.low) ∧
      P.camarilla.r1 = prev.close + (prev.high - prev.low) * 1.1 / 12 ∧
      P.camarilla.s1 = prev.close - (prev.high - prev.low) * 1.1 / 12 ∧
      P.camarilla.r2 = prev.close + (prev.high - prev.low) * 1.1 / 6 ∧
      P.camarilla.s2 = prev.close - (prev.high - prev.low) * 1.1 / 6 ∧
      P.camarilla.r3 = prev.close + (prev.high - prev.low) * 1.1 / 4 ∧
      P.camarilla.s3 = prev.close - (prev.high - prev.low) * 1.1 / 4 := by
  have hlt : df.length - 2 < df.length := by omega
  have hget : df.get ⟨df.length - 2, hlt⟩ = prev := by
    have := List.get?_eq_get hlt
    rw [this] at hprev
    exact Option.some.inj hprev
  simp only [calculate_pivot_points]
  rw [dif_neg (by omega : ¬ df.length < 2)]
  refine ⟨_, rfl, ?_⟩
  rw [hget]
  norm_num

/-- C8 witness: the pivot formulas evaluated on a concrete 2-bar history
whose second-to-last bar is `(high, low, close) = (12, 8, 10)`. -/
theorem C8_pivot_points_witness :
    ∃ P : PivotPoints,
      calculate_pivot_points (some [⟨12, 8, 10⟩, ⟨20, 15, 18⟩]) = some P ∧
      P.classic.pp = 10 ∧ P.classic.r1 = 12 ∧ P.classic.s1 = 8 ∧
      P.classic.r2 = 14 ∧ P.classic.s2 = 6 := by
  obtain ⟨P, hP, h1, h2, h3, h4, h5, -⟩ :=
    C8_pivot_points [⟨12, 8, 10⟩, ⟨20, 15, 18⟩] ⟨12, 8, 10⟩ (by decide) (by decide)
  refine ⟨P, hP, ?_, ?_, ?_, ?_, ?_⟩ <;> simp [h1, h2, h3, h4, h5] <;> norm_num

/-- C9: with a history of at least 30 bars, a quote in which any one of
`price`, `yearHigh`, `avgVolume`, `volume` is missing or equal to `0`
(Python-falsy) makes `calculate_darvas_box` return status
"Insufficient Data" instead of attempting classification. -/
theorem C9_darvas_falsy_quote_fields (df : List Bar) (q : DarvasQuote)
    (h30 : 30 ≤ df.length)
    (hmiss : truthy q.price = false ∨ truthy q.yearHigh = false ∨
      truthy q.avgVolume = false ∨ truthy q.volume = false) :
    calculate_darvas_box (some df) (some q) = insufficientData := by
  simp only [calculate_darvas_box]
  rw [if_neg (by omega : ¬ df.length < 30), if_pos]
  rcases hmiss with h | h | h | h <;> simp [h]

/-- C9 witness: 30 bars, and a quote whose `volume` is present but `0`,
yield "Insufficient Data". -/
theorem C9_darvas_falsy_quote_fields_witness :
    calculate_darvas_box (some (List.replicate 30 ⟨109, 106, 107⟩))
      (some ⟨some 108, some 115, some 101, some 0⟩) = insufficientData := by
  exact C9_darvas_falsy_quote_fields _ _ (by simp) (by simp [truthy])

/-- C5: for every history of at least 30 bars and a fully-populated quote
whose price is within 10% of the 52-week high, the Darvas scan uses
box top = max high and box bottom = min low over the most recent 15 bars,
reports "No Box Formed" when the top exceeds the bottom by more than 8%,
and otherwise classifies Breakout (price above the top; volume tag "on high
volume" exactly when current volume exceeds 1.5× average) with result Pass,
Breakdown (price below the bottom) with result Fail, or In Box with result
Neutral. -/
theorem C5_darvas_classification (df : List Bar) (q : DarvasQuote)
    (price yearHigh avgVol vol : ℚ)
    (h30 : 30 ≤ df.length)
    (hp : q.price = some price) (hp0 : price ≠ 0)
    (hy : q.yearHigh = some yearHigh) (hy0 : yearHigh ≠ 0)
    (ha : q.avgVolume = some avgVol) (ha0 : avgVol ≠ 0)
    (hv : q.volume = some vol) (hv0 : vol ≠ 0)
    (h10 : yearHigh * 0.90 ≤ price) :
    calculate_darvas_box (some df) (some q) =
      (let top := listMax ((df.drop (df.length - 15)).map Bar.high)
       let bot := listMin ((df.drop (df.length - 15)).map Bar.low)
       if top > bot * 1.08 then
        { status := "No Box Formed", box_top := none, box_bottom := none,
          result := none, volume_check := none }
       else if price > top then
        { status := "Breakout!", box_top := some top, box_bottom := some bot,
          result := some "Pass",
          volume_check := some (if vol > avgVol * 1.5 then "on high volume"
                                else "on average volume") }
       else if price < bot then
        { status := "Breakdown", box_top := some top, box_bottom := some bot,
          result := some "Fail", volume_check := none }
       else
        { status := "In Box", box_top := some top, box_bottom := some bot,
          result := some "Neutral", volume_check := none }) := by
  simp only [calculate_darvas_box]
  rw [if_neg (by omega : ¬ df.length < 30)]
  rw [if_neg (by simp [hp, hy, ha, hv, truthy, hp0, hy0, ha0, hv0])]
  simp only [hp, hy, ha, hv, Option.getD_some]
  rw [if_neg (by push_neg; linarith)]

/-- C5 witness: 30 bars whose last 15 have max high 110 and min low 105,
current price 108 and year-high 115 (within 10%), classify as "In Box"
with `box_top = 110`, `box_bottom = 105` and result Neutral. -/
theorem C5_darvas_classification_witness :
    calculate_darvas_box (some (List.replicate 30 ⟨110, 105, 108⟩))
      (some ⟨some 108, some 115, some 101, some 100⟩) =
      { status := "In Box", box_top := some 110, box_bottom := some 105,
        result := some "Neutral", volume_check := none } := by
  rw [C5_darvas_classification _ _ 108 115 101 100 (by simp) rfl (by norm_num) rfl
    (by norm_num) rfl (by norm_num) rfl (by norm_num) (by norm_num)]
  norm_num [listMax, listMin, rmax, rmin, List.drop_replicate, List.map_replicate,
    List.replicate_succ]

/-- C10: on a non-empty price history, the technical-indicator operation
always returns a `price_action`; its `trend` is "UP" exactly when the last
close strictly exceeds the previous bar's close and "DOWN" otherwise (the
previous bar defaults to the last bar itself on a 1-bar history, so a
single-bar history — and equal closes in general — yield "DOWN"). -/
theorem C10_price_action_trend (df : List Bar) (last : Bar)
    (hlast : df.getLast? = some last) :
    price_action_of df =
      some { current_close := last.close,
             trend := if last.close >
                 (if df.length > 1 then (df.get? (df.length - 2)).getD last
                  else last).close
               then "UP" else "DOWN" } ∧
    (df.length = 1 → price_action_of df = some ⟨last.close, "DOWN"⟩) := by
  constructor
  · simp only [price_action_of, hlast]
  · intro h1
    simp only [price_action_of, hlast, h1]
    norm_num

/-- C10 witness: the 1-bar history `[⟨1, 1, 1⟩]` yields a `price_action`
with trend "DOWN". -/
theorem C10_price_action_trend_witness :
    price_action_of [⟨1, 1, 1⟩] = some ⟨1, "DOWN"⟩ :=
  (C10_price_action_trend [⟨1, 1, 1⟩] ⟨1, 1, 1⟩ rfl).2 rfl

/-- C2 counterexample: with `previousClose` absent (and a present price of
100), `get_quote` binds `changesPercentage` to the number `0.0` — not to a
null/omitted value as the claim requires (the field is unconditionally a
float in the returned dict, also when `previousClose` is `0` or missing). -/
theorem C2_quote_counterexample :
    (get_quote ⟨some 100, none, none, none, none, none, none, none, none, none,
      none⟩).previousClose = none ∧
    (get_quote ⟨some 100, none, none, none, none, none, none, none, none, none,
      none⟩).changesPercentage = 0 := by
  constructor <;> simp [get_quote, pyOr, truthy]

/-- C2 (amended): when the returned price and `previousClose` are both
present and non-zero, `change = price - previousClose` and
`percentChange = change / previousClose * 100`; when either is missing or
`0`, both `change` and `changesPercentage` are returned as the number `0.0`
(not null/omitted). -/
theorem C2_quote_change_amended (info : QuoteInfo) :
    (∀ p pc, (get_quote info).price = some p → p ≠ 0 →
      (get_quote info).previousClose = some pc → pc ≠ 0 →
      (get_quote info).change = p - pc ∧
      (get_quote info).changesPercentage = (p - pc) / pc * 100) ∧
    ((truthy (get_quote info).price = false ∨
      truthy (get_quote info).previousClose = false) →
      (get_quote info).change = 0 ∧ (get_quote info).changesPercentage = 0) := by
  constructor
  · intro p pc hp hp0 hpc hpc0
    simp only [get_quote] at hp hpc ⊢
    rw [hp, hpc]
    simp [truthy, hp0, hpc0]
  · intro h
    rcases h with h | h <;> simp only [get_quote] at h ⊢ <;> simp [h]

/-- C2 witness: price 110 with previous close 100 gives change 10 and
percent change 10. -/
theorem C2_quote_change_amended_witness :
    (get_quote ⟨some 110, none, some 100, none, none, none, none, none, none,
      none, none⟩).change = 10 ∧
    (get_quote ⟨some 110, none, some 100, none, none, none, none, none, none,
      none, none⟩).changesPercentage = 10 := by
  have h := (C2_quote_change_amended ⟨some 110, none, some 100, none, none, none,
    none, none, none, none, none⟩).1 110 100 (by simp [get_quote, pyOr, truthy])
    (by norm_num) rfl (by norm_num)
  refine ⟨?_, ?_⟩
  · rw [h.1]; norm_num
  · rw [h.2]; norm_num

/-- C7 counterexample: a 20-bar history yields the empty dict — no moving
averages at all — although the claim requires the 5-, 10- and 20-period
averages to be returned for any history of at least those lengths
(`calculate_moving_averages` gates the whole dict on 50 bars). -/
theorem C7_moving_averages_counterexample :
    calculate_moving_averages (some (List.replicate 20 ⟨1, 1, 1⟩)) = none := by
  simp [calculate_moving_averages]

/-- C7 (amended): the moving-average dict is produced only when the history
has at least 50 bars (shorter histories yield the empty dict, with no
exception); when produced, the 5/10/20/50-period averages are always
present and equal to the mean of the last `w` closes, while the 100- and
200-period averages are present exactly when the history has at least 100
resp. 200 bars and are null otherwise. -/
theorem C7_moving_averages_amended (df : List Bar) :
    (df.length < 50 → calculate_moving_averages (some df) = none) ∧
    (50 ≤ df.length →
      calculate_moving_averages (some df) = some
        { ma5 := lastRollingMean 5 (df.map Bar.close)
          ma10 := lastRollingMean 10 (df.map Bar.close)
          ma20 := lastRollingMean 20 (df.map Bar.close)
          ma50 := lastRollingMean 50 (df.map Bar.close)
          ma100 := if 100 ≤ df.length then some (lastRollingMean 100 (df.map Bar.close))
            else none
          ma200 := if 200 ≤ df.length then some (lastRollingMean 200 (df.map Bar.close))
            else none }) := by
  constructor
  · intro h
    simp [calculate_moving_averages, h]
  · intro h
    have h' : ¬ df.length < 50 := by omega
    simp [calculate_moving_averages, h']

/-- C7 witness: a 50-bar history with constant close 2 yields all of the
5/10/20/50-period averages equal to 2 and null 100/200-period entries. -/
theorem C7_moving_averages_amended_witness :
    calculate_moving_averages (some (List.replicate 50 ⟨1, 1, 2⟩)) =
      some { ma5 := 2, ma10 := 2, ma20 := 2, ma50 := 2, ma100 := none, ma200 := none } := by
  have h := (C7_moving_averages_amended (List.replicate 50 ⟨1, 1, 2⟩)).2 (by simp)
  rw [h]
  norm_num [lastRollingMean, List.map_replicate, List.drop_replicate, List.sum_replicate,
    nsmul_eq_mul]

/-- C4 helper: the year-over-year ROA criterion needs a second income
period. -/
theorem critImprovingROA_of_short (inc bal : List FinRow) (h : inc.get? 1 = none) :
    critImprovingROA inc bal = false := by
  unfold critImprovingROA
  rw [h]
  cases inc.get? 0 <;> cases bal.get? 0 <;> cases bal.get? 1 <;> rfl

/-- C4 helper: the year-over-year debt-ratio criterion needs a second
balance period. -/
theorem critDecreasingDebtRatio_of_short (bal : List FinRow) (h : bal.get? 1 = none) :
    critDecreasingDebtRatio bal = false := by
  unfold critDecreasingDebtRatio
  rw [h]
  cases bal.get? 0 <;> rfl

/-- C4 helper: the year-over-year current-ratio criterion needs a second
balance period. -/
theorem critImprovingCurrentRatio_of_short (bal : List FinRow) (h : bal.get? 1 = none) :
    critImprovingCurrentRatio bal = false := by
  unfold critImprovingCurrentRatio
  rw [h]
  cases bal.get? 0 <;> rfl

/-- C4 helper: the share-issuance criterion needs a second income period. -/
theorem critNoNewShares_of_short (inc : List FinRow) (h : inc.get? 1 = none) :
    critNoNewShares inc = false := by
  unfold critNoNewShares
  rw [h]
  cases inc.get? 0 <;> rfl

/-- C4 helper: the gross-margin criterion needs a second income period. -/
theorem critImprovingGrossMargin_of_short (inc : List FinRow) (h : inc.get? 1 = none) :
    critImprovingGrossMargin inc = false := by
  unfold critImprovingGrossMargin
  rw [h]
  cases inc.get? 0 <;> rfl

/-- C4 helper: the asset-turnover criterion needs a second income period. -/
theorem critImprovingAssetTurnover_of_short (inc bal : List FinRow)
    (h : inc.get? 1 = none) : critImprovingAssetTurnover inc bal = false := by
  unfold critImprovingAssetTurnover
  rw [h]
  cases inc.get? 0 <;> cases bal.get? 0 <;> cases bal.get? 1 <;> rfl

/-- C4 (spec-modelled, `fundamental_service` absent from the sources): the
Piotroski score is an integer in [0,9] equal to the sum of the 9 one-point
criteria; any criterion with missing inputs scores 0 rather than raising,
and with single-period sequences every year-over-year criterion scores 0
(leaving at most the 3 single-period criteria, so the score is at most 3). -/
theorem C4_piotroski_score (inc bal cf : List FinRow) :
    (calculate_piotroski_f_score inc bal cf).score ≤ 9 ∧
    (calculate_piotroski_f_score inc bal cf).score =
      (calculate_piotroski_f_score inc bal cf).positiveNetIncome.toNat +
      (calculate_piotroski_f_score inc bal cf).positiveOperatingCashFlow.toNat +
      (calculate_piotroski_f_score inc bal cf).improvingROA.toNat +
      (calculate_piotroski_f_score inc bal cf).cashFlowExceedsIncome.toNat +
      (calculate_piotroski_f_score inc bal cf).decreasingDebtRatio.toNat +
      (calculate_piotroski_f_score inc bal cf).improvingCurrentRatio.toNat +
      (calculate_piotroski_f_score inc bal cf).noNewShares.toNat +
      (calculate_piotroski_f_score inc bal cf).improvingGrossMargin.toNat +
      (calculate_piotroski_f_score inc bal cf).improvingAssetTurnover.toNat ∧
    (inc.length ≤ 1 → bal.length ≤ 1 →
      (calculate_piotroski_f_score inc bal cf).improvingROA = false ∧
      (calculate_piotroski_f_score inc bal cf).decreasingDebtRatio = false ∧
      (calculate_piotroski_f_score inc bal cf).improvingCurrentRatio = false ∧
      (calculate_piotroski_f_score inc bal cf).noNewShares = false ∧
      (calculate_piotroski_f_score inc bal cf).improvingGrossMargin = false ∧
      (calculate_piotroski_f_score inc bal cf).improvingAssetTurnover = false ∧
      (calculate_piotroski_f_score inc bal cf).score ≤ 3) := by
  have hb : ∀ b : Bool, b.toNat ≤ 1 := fun b => by cases b <;> simp
  refine ⟨?_, rfl, ?_⟩
  · simp only [calculate_piotroski_f_score]
    have h1 := hb (critPositiveNetIncome inc)
    have h2 := hb (critPositiveOperatingCashFlow cf)
    have h3 := hb (critImprovingROA inc bal)
    have h4 := hb (critCashFlowExceedsIncome inc cf)
    have h5 := hb (critDecreasingDebtRatio bal)
    have h6 := hb (critImprovingCurrentRatio bal)
    have h7 := hb (critNoNewShares inc)
    have h8 := hb (critImprovingGrossMargin inc)
    have h9 := hb (critImprovingAssetTurnover inc bal)
    omega
  · intro hinc hbal
    have e1 : inc.get? 1 = none := List.get?_eq_none.mpr hinc
    have e2 : bal.get? 1 = none := List.get?_eq_none.mpr hbal
    have r3 := critImprovingROA_of_short inc bal e1
    have r5 := critDecreasingDebtRatio_of_short bal e2
    have r6 := critImprovingCurrentRatio_of_short bal e2
    have r7 := critNoNewShares_of_short inc e1
    have r8 := critImprovingGrossMargin_of_short inc e1
    have r9 := critImprovingAssetTurnover_of_short inc bal e1
    refine ⟨r3, r5, r6, r7, r8, r9, ?_⟩
    simp only [calculate_piotroski_f_score, r3, r5, r6, r7, r8, r9]
    have h1 := hb (critPositiveNetIncome inc)
    have h2 := hb (critPositiveOperatingCashFlow cf)
    have h4 := hb (critCashFlowExceedsIncome inc cf)
    simp only [Bool.toNat_false]
    omega

/-- C4 witness: with single-period sequences every year-over-year criterion
scores 0 and the total score is at most 3 (no error). -/
theorem C4_piotroski_score_witness :
    (calculate_piotroski_f_score [sampleRow] [sampleRow] [sampleRow]).improvingROA = false ∧
    (calculate_piotroski_f_score [sampleRow] [sampleRow] [sampleRow]).score ≤ 3 := by
  have h := (C4_piotroski_score [sampleRow] [sampleRow] [sampleRow]).2.2
    (by simp) (by simp)
  exact ⟨h.1, h.2.2.2.2.2.2⟩

mutual
/-- C6 helper: a cleaned value contains no non-finite float. -/
theorem hasNonFinite_clean_nans : ∀ v : PyVal, hasNonFinite (clean_nans v) = false
  | .vNone => rfl
  | .vBool _ => rfl
  | .vInt _ => rfl
  | .vStr _ => rfl
  | .vFloat (.finite _) => rfl
  | .vFloat .nan => rfl
  | .vFloat .inf => rfl
  | .vFloat .ninf => rfl
  | .vList xs => hasNonFiniteList_clean_nans xs
  | .vDict xs => hasNonFiniteDict_clean_nans xs
/-- C6 helper: a cleaned list contains no non-finite float. -/
theorem hasNonFiniteList_clean_nans :
    ∀ xs : PyList, hasNonFiniteList (clean_nansList xs) = false
  | .nil => rfl
  | .cons v rest => by
    simp [clean_nansList, hasNonFiniteList, hasNonFinite_clean_nans v,
      hasNonFiniteList_clean_nans rest]
/-- C6 helper: a cleaned dict contains no non-finite float. -/
theorem hasNonFiniteDict_clean_nans :
    ∀ xs : PyDict, hasNonFiniteDict (clean_nansDict xs) = false
  | .nil => rfl
  | .cons k v rest => by
    simp [clean_nansDict, hasNonFiniteDict, hasNonFinite_clean_nans v,
      hasNonFiniteDict_clean_nans rest]
end

mutual
/-- C6 helper: cleaning a value without non-finite floats is the
identity. -/
theorem clean_nans_of_finite : ∀ v : PyVal, hasNonFinite v = false → clean_nans v = v
  | .vNone, _ => rfl
  | .vBool _, _ => rfl
  | .vInt _, _ => rfl
  | .vStr _, _ => rfl
  | .vFloat (.finite _), _ => rfl
  | .vFloat .nan, h => absurd h (by simp [hasNonFinite])
  | .vFloat .inf, h => absurd h (by simp [hasNonFinite])
  | .vFloat .ninf, h => absurd h (by simp [hasNonFinite])
  | .vList xs, h => by
    simp only [clean_nans]
    rw [clean_nansList_of_finite xs (by simpa [hasNonFinite] using h)]
  | .vDict xs, h => by
    simp only [clean_nans]
    rw [clean_nansDict_of_finite xs (by simpa [hasNonFinite] using h)]
/-- C6 helper: cleaning a list without non-finite floats is the identity. -/
theorem clean_nansList_of_finite :
    ∀ xs : PyList, hasNonFiniteList xs = false → clean_nansList xs = xs
  | .nil, _ => rfl
  | .cons v rest, h => by
    simp only [hasNonFiniteList, Bool.or_eq_false_iff] at h
    simp only [clean_nansList]
    rw [clean_nans_of_finite v h.1, clean_nansList_of_finite rest h.2]
/-- C6 helper: cleaning a dict without non-finite floats is the identity. -/
theorem clean_nansDict_of_finite :
    ∀ xs : PyDict, hasNonFiniteDict xs = false → clean_nansDict xs = xs
  | .nil, _ => rfl
  | .cons k v rest, h => by
    simp only [hasNonFiniteDict, Bool.or_eq_false_iff] at h
    simp only [clean_nansDict]
    rw [clean_nans_of_finite v h.1, clean_nansDict_of_finite rest h.2]
end

/-- C6: `clean_nans` removes every non-finite float from the nested
response (the result contains none), leaves a structure without non-finite
floats unchanged, and is idempotent. -/
theorem C6_clean_nans_sanitization (v : PyVal) :
    hasNonFinite (clean_nans v) = false ∧
    (hasNonFinite v = false → clean_nans v = v) ∧
    clean_nans (clean_nans v) = clean_nans v :=
  ⟨hasNonFinite_clean_nans v, clean_nans_of_finite v,
   clean_nans_of_finite (clean_nans v) (hasNonFinite_clean_nans v)⟩

/-- C6 witness: a concrete one-entry dict with a finite float is already
sanitized, and cleaning it returns it unchanged. -/
theorem C6_clean_nans_sanitization_witness :
    hasNonFinite (clean_nans (PyVal.vDict (.cons "a" (.vFloat (.finite 1)) .nil))) = false ∧
    clean_nans (PyVal.vDict (.cons "a" (.vFloat (.finite 1)) .nil)) =
      PyVal.vDict (.cons "a" (.vFloat (.finite 1)) .nil) := by
  have h := C6_clean_nans_sanitization (PyVal.vDict (.cons "a" (.vFloat (.finite 1)) .nil))
  exact ⟨h.1, h.2.1 rfl⟩

/-- C1 helper: the RSI sub-score lies in [35, 85]. -/
theorem rsiScore_mem (x : Option ℚ) : 35 ≤ rsiScore x ∧ rsiScore x ≤ 85 := by
  rcases x with _ | r <;> simp only [rsiScore]
  · norm_num
  · split_ifs <;> norm_num

/-- C1 helper: the MACD sub-score lies in [20, 80]. -/
theorem macdScore_mem (m s : Option ℚ) : 20 ≤ macdScore m s ∧ macdScore m s ≤ 80 := by
  rcases m with _ | m <;> rcases s with _ | s <;> simp only [macdScore] <;>
    first
    | (split_ifs <;> norm_num)
    | (constructor <;> norm_num)

/-- C1 helper: the technical pillar score lies in [0, 100]. -/
theorem technical_sentiment_bounds (t : Option Technicals) :
    0 ≤ (calculate_technical_sentiment t).score ∧
    (calculate_technical_sentiment t).score ≤ 100 := by
  rcases t with _ | t
  · simp only [calculate_technical_sentiment]
    norm_num
  · obtain ⟨h1, h2⟩ := rsiScore_mem t.rsi
    obtain ⟨h3, h4⟩ := macdScore_mem t.macd t.macdsignal
    simp only [calculate_technical_sentiment]
    constructor <;> linarith

/-- C1 helper: the fundamental pillar score lies in [0, 100] when the
Piotroski score is absent or an integer in [0, 9]. -/
theorem fundamentalScore_bounds (p : Option ℤ)
    (hp : ∀ x, p = some x → 0 ≤ x ∧ x ≤ 9) :
    0 ≤ fundamentalScore p ∧ fundamentalScore p ≤ 100 := by
  rcases p with _ | x
  · simp only [fundamentalScore]
    norm_num
  · obtain ⟨h0, h9⟩ := hp x rfl
    have h0' : (0 : ℚ) ≤ (x : ℚ) := by exact_mod_cast h0
    have h9' : (x : ℚ) ≤ 9 := by exact_mod_cast h9
    simp only [fundamentalScore]
    constructor <;> linarith

/-- C1 helper: the valuation sub-score lies in [10, 100]. -/
theorem valScore_mem (pe : Option ℚ) : 10 ≤ valScore pe ∧ valScore pe ≤ 100 := by
  rcases pe with _ | v <;> simp only [valScore]
  · norm_num
  · split_ifs <;> norm_num

/-- C1 helper: the efficiency sub-score lies in [25, 100]. -/
theorem effScore_mem (roe : Option ℚ) : 25 ≤ effScore roe ∧ effScore roe ≤ 100 := by
  rcases roe with _ | r <;> simp only [effScore]
  · norm_num
  · split_ifs <;> norm_num

/-- C1 helper: the analyst pillar score lies in [0, 100] when all vote
counts are non-negative. -/
theorem analystScore_bounds (ar : List Rating)
    (h : ∀ r ∈ ar, 0 ≤ r.ratingStrongBuy ∧ 0 ≤ r.ratingBuy ∧ 0 ≤ r.ratingHold ∧
      0 ≤ r.ratingSell ∧ 0 ≤ r.ratingStrongSell) :
    0 ≤ analystScore ar ∧ analystScore ar ≤ 100 := by
  rcases ar with _ | ⟨latest, rest⟩
  · simp only [analystScore]
    norm_num
  · obtain ⟨hsb, hb, hh, hs, hss⟩ := h latest (List.mem_cons_self _ _)
    simp only [analystScore]
    by_cases htv : (0 : ℤ) < latest.ratingStrongBuy + latest.ratingBuy +
      latest.ratingHold + latest.ratingSell + latest.ratingStrongSell
    · rw [if_pos htv]
      have htv' : (0 : ℚ) < ((latest.ratingStrongBuy + latest.ratingBuy +
          latest.ratingHold + latest.ratingSell + latest.ratingStrongSell : ℤ) : ℚ) := by
        exact_mod_cast htv
      constructor
      · apply div_nonneg _ (le_of_lt htv')
        have : (0 : ℤ) ≤ latest.ratingStrongBuy * 100 + latest.ratingBuy * 75 +
            latest.ratingHold * 50 + latest.ratingSell * 25 +
            latest.ratingStrongSell * 0 := by linarith
        exact_mod_cast this
      · rw [div_le_iff₀ htv']
        have hsb' : (0 : ℚ) ≤ (latest.ratingStrongBuy : ℚ) := by exact_mod_cast hsb
        have hb' : (0 : ℚ) ≤ (latest.ratingBuy : ℚ) := by exact_mod_cast hb
        have hh' : (0 : ℚ) ≤ (latest.ratingHold : ℚ) := by exact_mod_cast hh
        have hs' : (0 : ℚ) ≤ (latest.ratingSell : ℚ) := by exact_mod_cast hs
        have hss' : (0 : ℚ) ≤ (latest.ratingStrongSell : ℚ) := by exact_mod_cast hss
        push_cast
        linarith
    · rw [if_neg htv]
      norm_num

/-- C1: for any inputs with the Piotroski score absent or an integer in
[0, 9] and non-negative analyst vote counts, the overall sentiment score
lies in [0, 100] and equals the arithmetic mean of the four pillar scores
of the returned breakdown, and the verdict is mapped by the inclusive
thresholds ≥75 Strong Buy, else ≥60 Buy, else ≤25 Strong Sell, else ≤40
Sell, else Neutral — in particular a score of exactly 75 gives Strong
Buy. -/
theorem C1_overall_sentiment (p : Option ℤ) (km : KeyMetrics) (t : Option Technicals)
    (ar : List Rating)
    (hp : ∀ x, p = some x → 0 ≤ x ∧ x ≤ 9)
    (har : ∀ r ∈ ar, 0 ≤ r.ratingStrongBuy ∧ 0 ≤ r.ratingBuy ∧ 0 ≤ r.ratingHold ∧
      0 ≤ r.ratingSell ∧ 0 ≤ r.ratingStrongSell) :
    (0 ≤ (calculate_overall_sentiment p km t ar).score ∧
      (calculate_overall_sentiment p km t ar).score ≤ 100) ∧
    (calculate_overall_sentiment p km t ar).score =
      ((calculate_overall_sentiment p km t ar).breakdown.fundamental.score +
       (calculate_overall_sentiment p km t ar).breakdown.financial.score +
       (calculate_overall_sentiment p km t ar).breakdown.analyst.score +
       (calculate_overall_sentiment p km t ar).breakdown.technical.score) / 4 ∧
    (calculate_overall_sentiment p km t ar).verdict =
      (if (calculate_overall_sentiment p km t ar).score ≥ 75 then Verdict.strongBuy
       else if (calculate_overall_sentiment p km t ar).score ≥ 60 then Verdict.buy
       else if (calculate_overall_sentiment p km t ar).score ≤ 25 then Verdict.strongSell
       else if (calculate_overall_sentiment p km t ar).score ≤ 40 then Verdict.sell
       else Verdict.neutral) ∧
    ((calculate_overall_sentiment p km t ar).score = 75 →
      (calculate_overall_sentiment p km t ar).verdict = Verdict.strongBuy) := by
  obtain ⟨hf0, hf1⟩ := fundamentalScore_bounds p hp
  obtain ⟨hv0, hv1⟩ := valScore_mem km.peRatioTTM
  obtain ⟨he0, he1⟩ := effScore_mem km.returnOnCapitalEmployedTTM
  obtain ⟨ha0, ha1⟩ := analystScore_bounds ar har
  obtain ⟨ht0, ht1⟩ := technical_sentiment_bounds t
  have hverd : (calculate_overall_sentiment p km t ar).verdict =
      (if (calculate_overall_sentiment p km t ar).score ≥ 75 then Verdict.strongBuy
       else if (calculate_overall_sentiment p km t ar).score ≥ 60 then Verdict.buy
       else if (calculate_overall_sentiment p km t ar).score ≤ 25 then Verdict.strongSell
       else if (calculate_overall_sentiment p km t ar).score ≤ 40 then Verdict.sell
       else Verdict.neutral) := rfl
  refine ⟨⟨?_, ?_⟩, rfl, hverd, ?_⟩
  · simp only [calculate_overall_sentiment]
    linarith
  · simp only [calculate_overall_sentiment]
    linarith
  · intro h75
    rw [hverd, h75]
    norm_num

/-- C1 witness: Piotroski 9 with no other data gives pillar scores
100/50/50/50, an overall score of 62.5 (in [0, 100]) and verdict Buy. -/
theorem C1_overall_sentiment_witness :
    (0 ≤ (calculate_overall_sentiment (some 9) ⟨none, none⟩ none []).score ∧
      (calculate_overall_sentiment (some 9) ⟨none, none⟩ none []).score ≤ 100) := by
  refine (C1_overall_sentiment (some 9) ⟨none, none⟩ none [] ?_ ?_).1
  · intro x hx
    injection hx with hx'
    subst hx'
    exact ⟨by norm_num, by norm_num⟩
  · intro r hr
    simp at hr

/-- C3 helper: the merged `news` field, definitionally. -/
theorem merge_news_eq (symbol : String) (raw : FetchResults) (lazy : LazyFetches) :
    (get_all_stock_data_merge symbol raw lazy).news = raw.news.getD [] := rfl

/-- C3 helper: the merged `analyst_ratings` field, definitionally. -/
theorem merge_ratings_eq (symbol : String) (raw : FetchResults) (lazy : LazyFetches) :
    (get_all_stock_data_merge symbol raw lazy).analyst_ratings =
      raw.yf_recommendations.getD [] := rfl

/-- C3 helper: the merged `price_target_consensus` field, definitionally. -/
theorem merge_pt_eq (symbol : String) (raw : FetchResults) (lazy : LazyFetches) :
    (get_all_stock_data_merge symbol raw lazy).price_target_consensus =
      raw.yf_price_target.getD [] := rfl

/-- C3 helper: the merged `key_metrics` field, definitionally. -/
theorem merge_km_eq (symbol : String) (raw : FetchResults) (lazy : LazyFetches) :
    (get_all_stock_data_merge symbol raw lazy).key_metrics =
      pyDictUnion (raw.yf_key_fundamentals.getD []) (raw.fmp_key_metrics.getD []) := rfl

/-- C3 helper: the merged `quote` field, definitionally. -/
theorem merge_quote_eq (symbol : String) (raw : FetchResults) (lazy : LazyFetches) :
    (get_all_stock_data_merge symbol raw lazy).quote = (mergePQ symbol raw lazy).2 := rfl

/-- C3 helper: the merged `profile` field, definitionally. -/
theorem merge_profile_eq (symbol : String) (raw : FetchResults) (lazy : LazyFetches) :
    (get_all_stock_data_merge symbol raw lazy).profile =
      dictSet (mergePQ symbol raw lazy).1 "tradingview_symbol"
        (.vStr (tvSymbol symbol)) := rfl

/-- C3 helper: the merged annual income field, definitionally. -/
theorem merge_ai_eq (symbol : String) (raw : FetchResults) (lazy : LazyFetches) :
    (get_all_stock_data_merge symbol raw lazy).annual_revenue_and_profit =
      (mergeFins symbol raw lazy).1.income := rfl

/-- C3 helper: the merged annual balance field, definitionally. -/
theorem merge_ab_eq (symbol : String) (raw : FetchResults) (lazy : LazyFetches) :
    (get_all_stock_data_merge symbol raw lazy).annual_balance_sheets =
      (mergeFins symbol raw lazy).1.balance := rfl

/-- C3 helper: the merged annual cash-flow field, definitionally. -/
theorem merge_ac_eq (symbol : String) (raw : FetchResults) (lazy : LazyFetches) :
    (get_all_stock_data_merge symbol raw lazy).annual_cash_flow_statements =
      (mergeFins symbol raw lazy).1.cash_flow := rfl

/-- C3 helper: the merged quarterly income field, definitionally. -/
theorem merge_qi_eq (symbol : String) (raw : FetchResults) (lazy : LazyFetches) :
    (get_all_stock_data_merge symbol raw lazy).quarterly_income_statements =
      (mergeFins symbol raw lazy).2.income := rfl

/-- C3 helper: the merged quarterly balance field, definitionally. -/
theorem merge_qb_eq (symbol : String) (raw : FetchResults) (lazy : LazyFetches) :
    (get_all_stock_data_merge symbol raw lazy).quarterly_balance_sheets =
      (mergeFins symbol raw lazy).2.balance := rfl

/-- C3 helper: the merged quarterly cash-flow field, definitionally. -/
theorem merge_qc_eq (symbol : String) (raw : FetchResults) (lazy : LazyFetches) :
    (get_all_stock_data_merge symbol raw lazy).quarterly_cash_flow_statements =
      (mergeFins symbol raw lazy).2.cash_flow := rfl

/-- C3 counterexample: with every provider task failed/empty (and every lazy
fallback empty), the merged `profile` is not the empty mapping — the claim
requires the structural default `\x7b\x7d` for the profile category, but
`get_all_stock_data` unconditionally injects the `tradingview_symbol` key
into the profile before returning. -/
theorem C3_merge_counterexample :
    (get_all_stock_data_merge "AAPL" rawEmpty lazyEmpty).profile ≠ [] := by
  rw [merge_profile_eq]
  simp [mergePQ, rawEmpty, lazyEmpty, dictSet, dictGet, pyTruthyOpt, apply_ite]

/-- C3 (amended): for every category whose providers all failed or returned
empty, the merged response binds that category's key to its structural
default — the empty list for the statement sequences, news and analyst
ratings, and the empty mapping for quote, key metrics and price target —
except the profile, which is bound to the singleton mapping carrying only
the injected `tradingview_symbol` key (never null, never a missing key). -/
theorem C3_merge_defaults (symbol : String) (raw : FetchResults) (lazy : LazyFetches) :
    (raw.news = none → (get_all_stock_data_merge symbol raw lazy).news = []) ∧
    (raw.yf_recommendations = none →
      (get_all_stock_data_merge symbol raw lazy).analyst_ratings = []) ∧
    (raw.yf_price_target = none →
      (get_all_stock_data_merge symbol raw lazy).price_target_consensus = []) ∧
    (raw.fmp_key_metrics = none → raw.yf_key_fundamentals = none →
      (get_all_stock_data_merge symbol raw lazy).key_metrics = []) ∧
    (raw.fmp_quote = none → lazy.q_yf = [] → raw.yf_quote = none →
      (get_all_stock_data_merge symbol raw lazy).quote = []) ∧
    (raw.fmp_profile = none → lazy.p_yf = [] → raw.yf_profile = none →
      (get_all_stock_data_merge symbol raw lazy).profile =
        [("tradingview_symbol", PyVal.vStr (tvSymbol symbol))]) ∧
    (raw.yf_historical_financials = none → lazy.yf_hist = YFinancials.empty →
      (raw.fmp_income_5y = none →
        (get_all_stock_data_merge symbol raw lazy).annual_revenue_and_profit = []) ∧
      (raw.fmp_balance_5y = none →
        (get_all_stock_data_merge symbol raw lazy).annual_balance_sheets = []) ∧
      (raw.fmp_cash_flow_5y = none →
        (get_all_stock_data_merge symbol raw lazy).annual_cash_flow_statements = [])) ∧
    (raw.yf_quarterly_financials = none → lazy.yf_q = YFinancials.empty →
      (raw.fmp_quarterly_income = none →
        (get_all_stock_data_merge symbol raw lazy).quarterly_income_statements = []) ∧
      (raw.fmp_quarterly_balance = none →
        (get_all_stock_data_merge symbol raw lazy).quarterly_balance_sheets = []) ∧
      (raw.fmp_quarterly_cash_flow = none →
        (get_all_stock_data_merge symbol raw lazy).quarterly_cash_flow_statements = [])) := by
  refine ⟨?_, ?_, ?_, ?_, ?_, ?_, ?_, ?_⟩
  · intro h
    rw [merge_news_eq, h]
    rfl
  · intro h
    rw [merge_ratings_eq, h]
    rfl
  · intro h
    rw [merge_pt_eq, h]
    rfl
  · intro h1 h2
    rw [merge_km_eq, h1, h2]
    rfl
  · intro h1 h2 h3
    rw [merge_quote_eq]
    simp [mergePQ, h1, h2, h3, dictGet, pyTruthyOpt, apply_ite]
  · intro h1 h2 h3
    rw [merge_profile_eq]
    simp [mergePQ, h1, h2, h3, dictGet, pyTruthyOpt, dictSet, apply_ite]
  · intro hy hl
    refine ⟨?_, ?_, ?_⟩
    · intro hfi
      rw [merge_ai_eq]
      simp [mergeFins, hfi, hy, hl, is_valid_financials, YFinancials.empty, apply_ite]
    · intro hfb
      rw [merge_ab_eq]
      by_cases hv : is_valid_financials (raw.fmp_income_5y.getD [])
      · simp [mergeFins, hv, hfb]
      · simp [mergeFins, hv, hy, hl, YFinancials.empty, apply_ite]
    · intro hfc
      rw [merge_ac_eq]
      by_cases hv : is_valid_financials (raw.fmp_income_5y.getD [])
      · simp [mergeFins, hv, hfc]
      · simp [mergeFins, hv, hy, hl, YFinancials.empty, apply_ite]
  · intro hy hl
    refine ⟨?_, ?_, ?_⟩
    · intro hfi
      rw [merge_qi_eq]
      by_cases hv : is_valid_financials (raw.fmp_income_5y.getD [])
      · simp [mergeFins, hv, hfi]
      · simp [mergeFins, hv, hy, hl, YFinancials.empty, apply_ite]
    · intro hfb
      rw [merge_qb_eq]
      by_cases hv : is_valid_financials (raw.fmp_income_5y.getD [])
      · simp [mergeFins, hv, hfb]
      · simp [mergeFins, hv, hy, hl, YFinancials.empty, apply_ite]
    · intro hfc
      rw [merge_qc_eq]
      by_cases hv : is_valid_financials (raw.fmp_income_5y.getD [])
      · simp [mergeFins, hv, hfc]
      · simp [mergeFins, hv, hy, hl, YFinancials.empty, apply_ite]

/-- C3 witness: with every provider failed/empty, the merged news is the
empty list, the merged quote the empty mapping, and the merged profile the
singleton `tradingview_symbol` mapping. -/
theorem C3_merge_defaults_witness :
    (get_all_stock_data_merge "AAPL" rawEmpty lazyEmpty).news = [] ∧
    (get_all_stock_data_merge "AAPL" rawEmpty lazyEmpty).quote = [] ∧
    (get_all_stock_data_merge "AAPL" rawEmpty lazyEmpty).profile =
      [("tradingview_symbol", PyVal.vStr (tvSymbol "AAPL"))] := by
  have h := C3_merge_defaults "AAPL" rawEmpty lazyEmpty
  exact ⟨h.1 rfl, h.2.2.2.2.1 rfl rfl rfl, h.2.2.2.2.2.1 rfl rfl rfl⟩

end Screener
